import Mathlib

/-!
Verification of the solana-swap-go swap client.

The development shallowly embeds the two source functions the claims are
about: `GetSwapInstructions` (query construction and response shaping) and
`sendAndConfirmTransaction` (the bounded submit-and-confirm polling loop).
Network and JSON I/O are modelled at their boundaries: the node is a
function from poll index to the poll outcome, the HTTP send is an
`Except` value, and the decoded quote response is an `Except` value.
Durations (`time.Duration` values) are modelled as `Nat`, the Go `int`
retry counter as `Int`, and Go `string` values as `String`.
-/

namespace SolanaSwap

/-- Lexicographic order on code-point lists; for the ASCII string constants
involved here this coincides with the byte-wise order Go uses to compare
strings with `<`. -/
def codesLt : List Nat → List Nat → Bool
  | _, [] => false
  | [], _ :: _ => true
  | a :: as, b :: bs => a < b || (a == b && codesLt as bs)

/-- Model of the Go expression `a < b` on strings. -/
def goStrLt (a b : String) : Bool :=
  codesLt (a.data.map Char.toNat) (b.data.map Char.toNat)

/-- Model of the Go expression `a >= b` on strings, as used by the
confirmation check in `sendAndConfirmTransaction`. -/
def goStrGe (a b : String) : Bool :=
  ! goStrLt a b

/-- The rpc.ConfirmationStatusProcessed string constant. -/
def statusProcessed : String := "processed"

/-- The rpc.ConfirmationStatusConfirmed string constant. -/
def statusConfirmed : String := "confirmed"

/-- The rpc.ConfirmationStatusFinalized string constant. -/
def statusFinalized : String := "finalized"

/-- Modelled from the spec: the glossary fixes the commitment-level order
processed < confirmed < finalized; this ranks the three levels so that the
intended "at or above the configured commitment" comparison can be stated. -/
def specCommitmentRank (c : String) : Nat :=
  if c = statusProcessed then 0 else if c = statusConfirmed then 1 else 2

/-- Model of rpc.SignatureStatusesResult as consulted by the loop: the
transaction-level error (`Err`, nil modelled as `none`) and the
`ConfirmationStatus` string. -/
structure SignatureStatus where
  err : Option String
  confirmationStatus : String
deriving DecidableEq

/-- Outcome of one GetSignatureStatuses call: either the RPC call itself
fails, or it yields `Value[0]` (possibly nil). -/
inductive PollResult where
  | rpcError (msg : String)
  | status (st : Option SignatureStatus)
deriving DecidableEq

/-- Terminal outcome of sendAndConfirmTransaction. -/
inductive TxResult where
  | sendError (msg : String)
  | statusRpcError (msg : String)
  | confirmationError (msg : String)
  | confirmed (sig : String)
  | timeout
deriving DecidableEq

/-- Observable outcome of the polling loop: the result, the number of
GetSignatureStatuses calls performed, and the total time slept. -/
structure LoopOut where
  result : TxResult
  polls : Nat
  sleepTime : Nat
deriving DecidableEq

/-- Observable outcome of a whole sendAndConfirmTransaction call: the
result, the number of SendTransactionWithOpts calls, the number of
GetSignatureStatuses calls, and the total time slept. -/
structure RunOut where
  result : TxResult
  sends : Nat
  polls : Nat
  sleepTime : Nat
deriving DecidableEq

/-- Model of rpc.TransactionOpts (the fields the spec names: preflight
skip, preflight commitment, node-level max retries). -/
structure TransactionOpts where
  skipPreflight : Bool
  preflightCommitment : String
  maxRetries : Option Nat
deriving DecidableEq

/-- Model of SwapOptions. `confirmationRetries` is a Go `int`, the
durations are `time.Duration` values modelled as `Nat`, and
`lastValidBlockHeightBuffer` is a `uint64`. -/
structure SwapOptions where
  sendOptions : TransactionOpts
  confirmationRetries : Int
  confirmationRetryTimeout : Nat
  lastValidBlockHeightBuffer : Nat
  commitment : String
  resendInterval : Nat
  confirmationCheckInterval : Nat
  skipConfirmationCheck : Bool
deriving DecidableEq

/-- The `for i := 0; i < options.ConfirmationRetries; i++` polling loop of
sendAndConfirmTransaction, with the remaining iteration budget as fuel and
the current poll index `i`. Each iteration queries the status; an RPC
failure returns that error; a non-nil status with a non-nil `Err` returns
the transaction failure; a non-nil status whose `ConfirmationStatus`
compares `>=` the finalized constant (Go string comparison) returns the
signature; otherwise the loop sleeps `ConfirmationCheckInterval` and
retries. -/
def confirmLoop (interval : Nat) (pa : Nat → PollResult) (sig : String) :
    Nat → Nat → LoopOut
  | 0, _ => ⟨TxResult.timeout, 0, 0⟩
  | fuel + 1, i =>
    match pa i with
    | PollResult.rpcError m => ⟨TxResult.statusRpcError m, 1, 0⟩
    | PollResult.status none =>
      let rest := confirmLoop interval pa sig fuel (i + 1)
      ⟨rest.result, rest.polls + 1, rest.sleepTime + interval⟩
    | PollResult.status (some s) =>
      match s.err with
      | some e => ⟨TxResult.confirmationError e, 1, 0⟩
      | none =>
        if goStrGe s.confirmationStatus statusFinalized then
          ⟨TxResult.confirmed sig, 1, 0⟩
        else
          let rest := confirmLoop interval pa sig fuel (i + 1)
          ⟨rest.result, rest.polls + 1, rest.sleepTime + interval⟩

/-- Model of sendAndConfirmTransaction. The node interaction is supplied
as data: `sendResult` is the outcome of the single
SendTransactionWithOpts call, `pa` gives the outcome of the
GetSignatureStatuses call at each poll index. A failed send is terminal;
with `SkipConfirmationCheck` the signature is returned with no polls;
otherwise the loop runs up to `ConfirmationRetries` times (a non-positive
Go `int` bound yields zero iterations) and falls through to the
confirmation-timed-out error. -/
def sendAndConfirmTransaction (o : SwapOptions) (sendResult : Except String String)
    (pa : Nat → PollResult) : RunOut :=
  match sendResult with
  | Except.error m => ⟨TxResult.sendError m, 1, 0, 0⟩
  | Except.ok sig =>
    if o.skipConfirmationCheck then ⟨TxResult.confirmed sig, 1, 0, 0⟩
    else
      let lo := confirmLoop o.confirmationCheckInterval pa sig o.confirmationRetries.toNat 0
      ⟨lo.result, 1, lo.polls, lo.sleepTime⟩

/-- Whether one loop iteration falls through to the sleep and the next
iteration: the status is nil, or it carries no error and its confirmation
status fails the code comparison against the finalized constant. -/
def pollContinues : PollResult → Bool
  | PollResult.rpcError _ => false
  | PollResult.status none => true
  | PollResult.status (some s) =>
    s.err.isNone && ! goStrGe s.confirmationStatus statusFinalized

/-- Input of GetSwapInstructions: the seven parameters of the call.
Go `float64` amounts are modelled as rationals and the optional
`*float64` priority fee as an `Option`. -/
structure SwapRequest where
  fromToken : String
  toToken : String
  fromAmount : Rat
  slippage : Rat
  payer : String
  priorityFee : Option Rat
  forceLegacy : Bool

/-- Model of the decoded quoting-service response (SwapResponse): the
base64 transaction payload and the echoed legacy flag. -/
structure SwapResponse where
  txn : String
  forceLegacy : Bool
deriving DecidableEq

/-- Left-pad a digit string with zeros to the given width. -/
def padZeros (s : String) (w : Nat) : String :=
  if s.length ≥ w then s else String.mk (List.replicate (w - s.length) '0') ++ s

/-- Model of the Go format `fmt.Sprintf` with verb %f applied to a
float64: decimal notation with exactly six fractional digits (the float
value is modelled as a rational, rounded at the sixth digit). -/
def formatFloat (q : Rat) : String :=
  let scaled : Nat := (q.num.natAbs * 1000000 * 2 + q.den) / (q.den * 2)
  let sign := if q < 0 then "-" else ""
  sign ++ toString (scaled / 1000000) ++ "." ++ padZeros (toString (scaled % 1000000)) 6

/-- Model of strconv.FormatBool. -/
def formatBool (b : Bool) : String :=
  if b then "true" else "false"

/-- Hexadecimal digit in upper case, as url.QueryEscape emits. -/
def hexDigit (n : Nat) : Char :=
  if n < 10 then Char.ofNat (48 + n) else Char.ofNat (55 + n)

/-- Characters url.QueryEscape leaves unescaped (RFC 3986 unreserved). -/
def isUnreserved (c : Char) : Bool :=
  c.isAlphanum || c = '-' || c = '_' || c = '.' || c = '~'

/-- Escape one character as url.QueryEscape does: unreserved characters
stand, a space becomes a plus sign, anything else becomes a percent
escape (stated for the ASCII range the query values use). -/
def escapeChar (c : Char) : String :=
  if isUnreserved c then String.mk [c]
  else if c = ' ' then String.mk ['+']
  else String.mk ['%', hexDigit (c.toNat / 16 % 16), hexDigit (c.toNat % 16)]

/-- Model of url.QueryEscape. -/
def queryEscape (s : String) : String :=
  String.join (s.data.map escapeChar)

/-- The query-parameter keys used by GetSwapInstructions. -/
def keyFrom : String := "from"

/-- The destination-token key. -/
def keyTo : String := "to"

/-- The source-amount key. -/
def keyFromAmount : String := "fromAmount"

/-- The slippage key. -/
def keySlippage : String := "slippage"

/-- The payer key. -/
def keyPayer : String := "payer"

/-- The legacy-mode key. -/
def keyForceLegacy : String := "forceLegacy"

/-- The optional priority-fee key. -/
def keyPriorityFee : String := "priorityFee"

/-- The key-value pairs GetSwapInstructions adds to its url.Values, in
the order of the `params.Add` calls: the six unconditional fields, then
`priorityFee` exactly when the pointer is non-nil. -/
def queryParams (req : SwapRequest) : List (String × String) :=
  [(keyFrom, req.fromToken),
   (keyTo, req.toToken),
   (keyFromAmount, formatFloat req.fromAmount),
   (keySlippage, formatFloat req.slippage),
   (keyPayer, req.payer),
   (keyForceLegacy, formatBool req.forceLegacy)]
  ++ (match req.priorityFee with
      | some f => [(keyPriorityFee, formatFloat f)]
      | none => [])

/-- Insert a pair into a key-sorted list of pairs (url.Values.Encode
sorts its keys). -/
def insertByKey (p : String × String) : List (String × String) → List (String × String)
  | [] => [p]
  | q :: qs => if goStrLt q.1 p.1 then q :: insertByKey p qs else p :: q :: qs

/-- Sort the pairs by key, as url.Values.Encode does before emitting. -/
def sortByKey : List (String × String) → List (String × String)
  | [] => []
  | p :: ps => insertByKey p (sortByKey ps)

/-- Model of url.Values.Encode on the pairs: keys sorted, each pair
emitted as escaped key, equals sign, escaped value, joined by
ampersands. -/
def encodeQuery (ps : List (String × String)) : String :=
  String.intercalate (String.mk ['&'])
    ((sortByKey ps).map fun p => queryEscape p.1 ++ String.mk ['='] ++ queryEscape p.2)

/-- The full query string GetSwapInstructions appends after `/swap?`. -/
def swapQueryString (req : SwapRequest) : String :=
  encodeQuery (queryParams req)

/-- Model of the response shaping in GetSwapInstructions: after the HTTP
call and JSON decode (their outcome is the `decoded` argument), the
ForceLegacy field of the decoded response is overwritten with the
`forceLegacy` parameter before the response is returned. -/
def getSwapInstructions (decoded : Except String SwapResponse) (forceLegacy : Bool) :
    Except String SwapResponse :=
  match decoded with
  | Except.error e => Except.error e
  | Except.ok r => Except.ok { r with forceLegacy := forceLegacy }

/-- An options bundle differing from `o` only in the three fields the
polling loop is claimed to honor: confirmation retry timeout, last valid
block height buffer, and resend interval. -/
def setUnusedFields (o : SwapOptions) (t b r : Nat) : SwapOptions :=
  { o with
    confirmationRetryTimeout := t,
    lastValidBlockHeightBuffer := b,
    resendInterval := r }

/-- A sample signature string for concrete runs. -/
def exSig : String := "sig"

/-- A sample error message for concrete runs. -/
def exErr : String := "boom"

/-- A sample base64 transaction payload. -/
def exTxn : String := "dGVzdA"

/-- A concrete options bundle: required commitment finalized, three
confirmation retries, a 100 unit check interval, confirmation check not
skipped. -/
def optsBase : SwapOptions :=
  ⟨⟨false, statusFinalized, none⟩, 3, 0, 0, statusFinalized, 0, 100, false⟩

/-- Like `optsBase` but with the confirmation check skipped. -/
def optsSkip : SwapOptions :=
  { optsBase with skipConfirmationCheck := true }

/-- Like `optsBase` but with required commitment confirmed and two
confirmation retries. -/
def optsC4 : SwapOptions :=
  { optsBase with commitment := statusConfirmed, confirmationRetries := 2 }

/-- Like `optsBase` but with required commitment confirmed. -/
def optsC6 : SwapOptions :=
  { optsBase with commitment := statusConfirmed }

/-- Like `optsBase` but with a negative retry budget. -/
def optsNoRetries : SwapOptions :=
  { optsBase with confirmationRetries := -1 }

/-- A node that reports a processed, error-free status on every poll. -/
def pollAllProcessed : Nat → PollResult :=
  fun _ => PollResult.status (some ⟨none, statusProcessed⟩)

/-- A node that reports a confirmed, error-free status on every poll. -/
def pollAllConfirmed : Nat → PollResult :=
  fun _ => PollResult.status (some ⟨none, statusConfirmed⟩)

/-- A node that reports a finalized, error-free status on every poll. -/
def pollAllFinalized : Nat → PollResult :=
  fun _ => PollResult.status (some ⟨none, statusFinalized⟩)

/-- A node that reports no status on every poll. -/
def pollNone : Nat → PollResult :=
  fun _ => PollResult.status none

/-- C1: the claim fails on the code. With required commitment finalized,
three retries, and a node reporting processed on every poll, the loop
returns the signature after a single poll instead of a timeout after
three: the code compares the status string against the finalized constant
with Go string order, under which processed sorts above finalized, and it
never consults the configured commitment level, although the spec rank of
processed is strictly below finalized. -/
theorem processed_accepted_despite_finalized_commitment :
    specCommitmentRank statusProcessed < specCommitmentRank statusFinalized
    ∧ sendAndConfirmTransaction optsBase (Except.ok exSig) pollAllProcessed
        = ⟨TxResult.confirmed exSig, 1, 1, 0⟩ :=
  ⟨by decide, by decide⟩

/-- C2 counterexample: the claim asserts some pair of runs with identical
node responses differing only in the confirmation retry timeout, the last
valid block height buffer, and the resend interval shows different
observable behavior; no such pair exists, because
sendAndConfirmTransaction never reads those three fields. -/
theorem no_behavior_difference_from_unused_fields :
    ¬ ∃ (o : SwapOptions) (t b r : Nat) (sr : Except String String)
        (pa : Nat → PollResult),
      sendAndConfirmTransaction (setUnusedFields o t b r) sr pa
        ≠ sendAndConfirmTransaction o sr pa := by
  rintro ⟨o, t, b, r, sr, pa, hne⟩
  exact hne rfl

/-- C2 amended: the three fields are stored in the options but never read
by the submit-and-confirm loop, so any two runs with identical node
responses that differ only in these fields have identical observable
behavior. -/
theorem sendAndConfirm_ignores_unused_fields (o : SwapOptions) (t b r : Nat)
    (sr : Except String String) (pa : Nat → PollResult) :
    sendAndConfirmTransaction (setUnusedFields o t b r) sr pa
      = sendAndConfirmTransaction o sr pa :=
  rfl

/-- C3: with SkipConfirmationCheck set and a successful send, the call
returns the signature immediately with zero status polls and no sleep. -/
theorem skipConfirmationCheck_returns_after_send (o : SwapOptions) (sig : String)
    (pa : Nat → PollResult) (h : o.skipConfirmationCheck = true) :
    sendAndConfirmTransaction o (Except.ok sig) pa
      = ⟨TxResult.confirmed sig, 1, 0, 0⟩ := by
  simp [sendAndConfirmTransaction, h]

/-- C3 witness at a concrete options bundle with the check skipped. -/
theorem skipConfirmationCheck_returns_after_send_witness :
    sendAndConfirmTransaction optsSkip (Except.ok exSig) pollNone
      = ⟨TxResult.confirmed exSig, 1, 0, 0⟩ :=
  skipConfirmationCheck_returns_after_send optsSkip exSig pollNone rfl

/-- C4: the claim fails on the code. With required commitment confirmed,
two retries, and a node reporting processed (below confirmed in the spec
order, so never a sufficient commitment) on every poll, the loop should
time out after two polls, but the code accepts the processed status on
the first poll, because Go string order places processed above the
finalized constant it compares against. -/
theorem processed_prevents_timeout_claim :
    specCommitmentRank statusProcessed < specCommitmentRank statusConfirmed
    ∧ sendAndConfirmTransaction optsC4 (Except.ok exSig) pollAllProcessed
        = ⟨TxResult.confirmed exSig, 1, 1, 0⟩ :=
  ⟨by decide, by decide⟩

/-- C6: the claim fails on the code. With required commitment confirmed,
three retries, and a node reporting confirmed on every poll, sufficient
commitment is reached on the first attempt per the spec order, so the
call should return the signature after one poll; the code instead ignores
the configured commitment, compares the confirmed status against the
finalized constant, never accepts it, and times out after three polls. -/
theorem confirmed_status_never_accepted :
    specCommitmentRank statusConfirmed ≥ specCommitmentRank statusConfirmed
    ∧ sendAndConfirmTransaction optsC6 (Except.ok exSig) pollAllConfirmed
        = ⟨TxResult.timeout, 1, 3, 300⟩ :=
  ⟨by decide, by decide⟩

/-- C7: the transaction is submitted exactly once per call, and a failed
send is terminal: the call returns the send error with zero polls and is
never resubmitted. -/
theorem transaction_sent_exactly_once (o : SwapOptions) (sr : Except String String)
    (pa : Nat → PollResult) :
    (sendAndConfirmTransaction o sr pa).sends = 1
    ∧ ∀ m, sr = Except.error m →
        sendAndConfirmTransaction o sr pa = ⟨TxResult.sendError m, 1, 0, 0⟩ := by
  constructor
  · cases sr with
    | error m => rfl
    | ok sig => by_cases h : o.skipConfirmationCheck <;> simp [sendAndConfirmTransaction, h]
  · rintro m rfl
    rfl

/-- C7 witness: a failed send at a concrete options bundle. -/
theorem transaction_sent_exactly_once_witness :
    sendAndConfirmTransaction optsBase (Except.error exErr) pollNone
      = ⟨TxResult.sendError exErr, 1, 0, 0⟩ :=
  (transaction_sent_exactly_once optsBase (Except.error exErr) pollNone).2 exErr rfl

/-- C9: whenever the quote fetch succeeds, the ForceLegacy field of the
returned response equals the forceLegacy argument, regardless of the flag
the decoded service response carried. -/
theorem forceLegacy_overwritten_by_argument (d : Except String SwapResponse) (fl : Bool)
    (r : SwapResponse) (h : getSwapInstructions d fl = Except.ok r) :
    r.forceLegacy = fl := by
  cases d with
  | error e =>
    simp only [getSwapInstructions] at h
    exact Except.noConfusion h
  | ok q =>
    simp only [getSwapInstructions] at h
    injection h with h3
    rw [← h3]

/-- C9 witness: a decoded response carrying a false flag is returned with
the true flag the caller passed. -/
theorem forceLegacy_overwritten_by_argument_witness :
    (SwapResponse.mk exTxn true).forceLegacy = true :=
  forceLegacy_overwritten_by_argument (Except.ok ⟨exTxn, false⟩) true ⟨exTxn, true⟩ rfl

/-- C10: with the confirmation check enabled and a non-positive retry
budget, a successful send ends in the confirmation timeout error with
zero status polls, whatever the node would have reported. -/
theorem nonpositive_retries_timeout (o : SwapOptions) (sig : String)
    (pa : Nat → PollResult) (hskip : o.skipConfirmationCheck = false)
    (hr : o.confirmationRetries ≤ 0) :
    sendAndConfirmTransaction o (Except.ok sig) pa = ⟨TxResult.timeout, 1, 0, 0⟩ := by
  have h0 : o.confirmationRetries.toNat = 0 := Int.toNat_of_nonpos hr
  simp [sendAndConfirmTransaction, hskip, h0, confirmLoop]

/-- C10 witness: a negative retry budget times out at once even though
the node reports finalized on every poll. -/
theorem nonpositive_retries_timeout_witness :
    sendAndConfirmTransaction optsNoRetries (Except.ok exSig) pollAllFinalized
      = ⟨TxResult.timeout, 1, 0, 0⟩ :=
  nonpositive_retries_timeout optsNoRetries exSig pollAllFinalized rfl (by decide)

/-- While the first `m` polls fall through, the loop performs them, sleeps
after each, and continues from index `i + m` with `m` units of fuel
spent. -/
theorem confirmLoop_skip (interval : Nat) (pa : Nat → PollResult) (sig : String) :
    ∀ (m fuel i : Nat), m ≤ fuel →
      (∀ j, j < m → pollContinues (pa (i + j)) = true) →
      confirmLoop interval pa sig fuel i
        = ⟨(confirmLoop interval pa sig (fuel - m) (i + m)).result,
           (confirmLoop interval pa sig (fuel - m) (i + m)).polls + m,
           (confirmLoop interval pa sig (fuel - m) (i + m)).sleepTime + m * interval⟩ := by
  intro m
  induction m with
  | zero =>
    intro fuel i _ _
    simp
  | succ n ih =>
    intro fuel i hle hcont
    cases fuel with
    | zero => omega
    | succ f =>
      have hc0 : pollContinues (pa i) = true := by
        simpa using hcont 0 (Nat.succ_pos n)
      have hrec := ih f (i + 1) (by omega) (fun j hj => by
        have h := hcont (j + 1) (by omega)
        have harg : i + (j + 1) = i + 1 + j := by omega
        rwa [harg] at h)
      have harith : ∀ z : Nat, z + n * interval + interval = z + (n + 1) * interval := by
        intro z
        ring
      cases hpa : pa i with
      | rpcError msg =>
        rw [hpa] at hc0
        simp [pollContinues] at hc0
      | status st =>
        cases st with
        | none =>
          have hidx : i + 1 + n = i + (n + 1) := by omega
          have hf : f - n = f + 1 - (n + 1) := by omega
          simp only [confirmLoop, hpa, hrec, hidx, hf]
          exact congrArg₂ (LoopOut.mk _) (by omega) (harith _)
        | some s =>
          rw [hpa] at hc0
          simp only [pollContinues, Bool.and_eq_true] at hc0
          obtain ⟨herr, hge⟩ := hc0
          have herr2 : s.err = none := Option.isNone_iff_eq_none.mp herr
          have hge2 : goStrGe s.confirmationStatus statusFinalized = false := by
            simpa using hge
          have hidx : i + 1 + n = i + (n + 1) := by omega
          have hf : f - n = f + 1 - (n + 1) := by omega
          simp only [confirmLoop, hpa, herr2, hge2, hrec, hidx, hf, if_false, Bool.false_eq_true]
          exact congrArg₂ (LoopOut.mk _) (by omega) (harith _)

/-- C5: if the loop reaches poll attempt `k` (the first `k - 1` polls
fall through) and the status queried on attempt `k` carries a
transaction-level error, the call stops with the confirmation error
surfacing that error after exactly `k` polls, having slept only between
consecutive polls. -/
theorem transaction_error_stops_polling (o : SwapOptions) (sig e c : String)
    (pa : Nat → PollResult) (k : Nat)
    (hk1 : 1 ≤ k) (hk2 : (k : Int) ≤ o.confirmationRetries)
    (hskip : o.skipConfirmationCheck = false)
    (hprev : ∀ j, j < k - 1 → pollContinues (pa j) = true)
    (hkth : pa (k - 1) = PollResult.status (some ⟨some e, c⟩)) :
    sendAndConfirmTransaction o (Except.ok sig) pa
      = ⟨TxResult.confirmationError e, 1, k, (k - 1) * o.confirmationCheckInterval⟩ := by
  have hfuel : k ≤ o.confirmationRetries.toNat := by omega
  have hcont : ∀ j, j < k - 1 → pollContinues (pa (0 + j)) = true := by
    intro j hj
    simpa using hprev j hj
  have hskiplem := confirmLoop_skip o.confirmationCheckInterval pa sig (k - 1)
      o.confirmationRetries.toNat 0 (by omega) hcont
  have hstep : confirmLoop o.confirmationCheckInterval pa sig
      (o.confirmationRetries.toNat - (k - 1)) (0 + (k - 1))
      = ⟨TxResult.confirmationError e, 1, 0⟩ := by
    obtain ⟨f, hf⟩ : ∃ f, o.confirmationRetries.toNat - (k - 1) = f + 1 :=
      ⟨o.confirmationRetries.toNat - k, by omega⟩
    have hz : (0 : Nat) + (k - 1) = k - 1 := by omega
    rw [hf, hz]
    simp [confirmLoop, hkth]
  simp only [sendAndConfirmTransaction, hskip, Bool.false_eq_true, if_false]
  rw [hskiplem, hstep]
  dsimp only
  exact congrArg₂ (RunOut.mk _ _) (by omega) (Nat.zero_add _)

/-- A node whose first poll yields no status and whose later polls yield
a transaction-level error. -/
def pollErrAtSecond : Nat → PollResult :=
  fun n =>
    if n = 0 then PollResult.status none
    else PollResult.status (some ⟨some exErr, statusProcessed⟩)

/-- C5 witness: with three retries, a nil status on the first poll and an
erroring status on the second, the call stops after two polls with the
confirmation error and one sleep interval. -/
theorem transaction_error_stops_polling_witness :
    sendAndConfirmTransaction optsBase (Except.ok exSig) pollErrAtSecond
      = ⟨TxResult.confirmationError exErr, 1, 2, 100⟩ :=
  transaction_error_stops_polling optsBase exSig exErr statusProcessed pollErrAtSecond 2
    (by decide) (by decide) rfl
    (fun j hj => by
      have hj0 : j = 0 := by omega
      subst hj0
      decide)
    rfl

/-- C8: the pairs GetSwapInstructions adds to its query carry each of the
six unconditional keys exactly once, carry the priority-fee key exactly
once when the fee pointer is non-nil and never when it is nil, and bind
each key to the encoding of the corresponding request field (the floats
via the %f format, the flag via strconv.FormatBool); url.Values.Encode
then emits exactly these pairs, percent-escaped and sorted by key, into
the query string. -/
theorem swap_query_fields_exactly_once (req : SwapRequest) :
    List.countP (fun p => p.1 == keyFrom) (queryParams req) = 1
    ∧ List.countP (fun p => p.1 == keyTo) (queryParams req) = 1
    ∧ List.countP (fun p => p.1 == keyFromAmount) (queryParams req) = 1
    ∧ List.countP (fun p => p.1 == keySlippage) (queryParams req) = 1
    ∧ List.countP (fun p => p.1 == keyPayer) (queryParams req) = 1
    ∧ List.countP (fun p => p.1 == keyForceLegacy) (queryParams req) = 1
    ∧ List.countP (fun p => p.1 == keyPriorityFee) (queryParams req)
        = (if req.priorityFee.isSome then 1 else 0)
    ∧ List.lookup keyFrom (queryParams req) = some req.fromToken
    ∧ List.lookup keyTo (queryParams req) = some req.toToken
    ∧ List.lookup keyFromAmount (queryParams req) = some (formatFloat req.fromAmount)
    ∧ List.lookup keySlippage (queryParams req) = some (formatFloat req.slippage)
    ∧ List.lookup keyPayer (queryParams req) = some req.payer
    ∧ List.lookup keyForceLegacy (queryParams req) = some (formatBool req.forceLegacy)
    ∧ List.lookup keyPriorityFee (queryParams req) = Option.map formatFloat req.priorityFee := by
  obtain ⟨ft, tt, fa, sl, py, pf, flg⟩ := req
  cases pf <;>
    simp [queryParams, List.lookup, List.countP, List.countP.go,
      keyFrom, keyTo, keyFromAmount, keySlippage, keyPayer, keyForceLegacy, keyPriorityFee]

end SolanaSwap
